import Mathlib

/-!
Shallow embedding of the NotesHub backend core: the in-memory storage engine
(MemStorage in backend/src/storage.ts), the backend-selection logic
(initializeStorage), the auth middleware (backend/src/middleware/auth.ts) and
the route handlers (backend/src/routes.ts).

Strings stay Lean String; JavaScript Date timestamps are modelled as Nat
(milliseconds since epoch, monotone between successive calls); nanoid() and
new Date() become explicit parameters of the operations that call them.
JavaScript Map<string, T> is modelled as an insertion-ordered association list
with Map.set semantics (replace in place on existing key, append on new key).
-/

inductive Plan where
  | free
  | pro
  deriving DecidableEq, Repr

inductive Role where
  | Admin
  | Member
  deriving DecidableEq, Repr

/-- Tenant record (shared/schema.ts tenantSchema). -/
structure Tenant where
  _id : String
  name : String
  slug : String
  plan : Plan
  createdAt : Nat
  updatedAt : Nat
  deriving DecidableEq, Repr

/-- User record (shared/schema.ts userSchema). -/
structure User where
  _id : String
  email : String
  passwordHash : String
  role : Role
  tenantId : String
  createdAt : Nat
  updatedAt : Nat
  deriving DecidableEq, Repr

/-- Note record (shared/schema.ts noteSchema). -/
structure Note where
  _id : String
  title : String
  body : String
  tenantId : String
  authorId : String
  createdAt : Nat
  updatedAt : Nat
  deriving DecidableEq, Repr

/-- Partial note update (shared/schema.ts updateNoteSchema = insertNoteSchema.partial()). -/
structure UpdateNote where
  title : Option String
  body : Option String
  deriving DecidableEq, Repr

/-- JavaScript Map.get: first binding of the key, if any. -/
def mapGet {α : Type} (m : List (String × α)) (k : String) : Option α :=
  match m with
  | [] => none
  | p :: rest => if p.1 = k then some p.2 else mapGet rest k

/-- JavaScript Map.set: replace the binding in place if the key exists, else append. -/
def mapSet {α : Type} (m : List (String × α)) (k : String) (v : α) : List (String × α) :=
  match m with
  | [] => [(k, v)]
  | p :: rest => if p.1 = k then (k, v) :: rest else p :: mapSet rest k v

/-- JavaScript Map.delete: remove the binding of the key, if any. -/
def mapDelete {α : Type} (m : List (String × α)) (k : String) : List (String × α) :=
  match m with
  | [] => []
  | p :: rest => if p.1 = k then rest else p :: mapDelete rest k

/-- JavaScript Map.values() in insertion order. -/
def mapValues {α : Type} (m : List (String × α)) : List α :=
  m.map (fun p => p.2)

/-- The three private maps of class MemStorage (backend/src/storage.ts). -/
structure MemStorage where
  tenants : List (String × Tenant)
  users : List (String × User)
  notes : List (String × Note)
  deriving DecidableEq, Repr

/-- Insert payload for createTenant (shared/schema.ts insertTenantSchema). -/
structure InsertTenant where
  name : String
  slug : String
  plan : Plan
  deriving DecidableEq, Repr

namespace MemStorage

/-- MemStorage.getTenant: this.tenants.get(id) or null. -/
def getTenant (s : MemStorage) (id : String) : Option Tenant :=
  mapGet s.tenants id

/-- MemStorage.getTenantBySlug: linear scan of values for the first slug match. -/
def getTenantBySlug (s : MemStorage) (slug : String) : Option Tenant :=
  (mapValues s.tenants).find? (fun t => t.slug == slug)

/-- MemStorage.createTenant: fresh nanoid and now become explicit parameters. -/
def createTenant (s : MemStorage) (newId : String) (now : Nat) (tenantData : InsertTenant) :
    Tenant × MemStorage :=
  let tenant : Tenant :=
    { _id := newId
      name := tenantData.name
      slug := tenantData.slug
      plan := tenantData.plan
      createdAt := now
      updatedAt := now }
  (tenant, { s with tenants := mapSet s.tenants tenant._id tenant })

/-- MemStorage.updateTenantPlan: null when the id is absent, else refresh plan and updatedAt. -/
def updateTenantPlan (s : MemStorage) (id : String) (plan : Plan) (now : Nat) :
    Option Tenant × MemStorage :=
  match mapGet s.tenants id with
  | none => (none, s)
  | some tenant =>
    let updatedTenant : Tenant := { tenant with plan := plan, updatedAt := now }
    (some updatedTenant, { s with tenants := mapSet s.tenants id updatedTenant })

/-- MemStorage.getUser: this.users.get(id) or null. -/
def getUser (s : MemStorage) (id : String) : Option User :=
  mapGet s.users id

/-- MemStorage.getUserByEmail: linear scan of values for the first email match. -/
def getUserByEmail (s : MemStorage) (email : String) : Option User :=
  (mapValues s.users).find? (fun u => u.email == email)

/-- MemStorage.createUser: fresh nanoid and now become explicit parameters. -/
def createUser (s : MemStorage) (newId : String) (now : Nat)
    (email passwordHash : String) (role : Role) (tenantId : String) : User × MemStorage :=
  let user : User :=
    { _id := newId
      email := email
      passwordHash := passwordHash
      role := role
      tenantId := tenantId
      createdAt := now
      updatedAt := now }
  (user, { s with users := mapSet s.users user._id user })

/-- MemStorage.getNotesByTenant: collect the values whose tenantId matches. -/
def getNotesByTenant (s : MemStorage) (tenantId : String) : List Note :=
  (mapValues s.notes).filter (fun n => n.tenantId == tenantId)

/-- MemStorage.getNote: null unless the note exists and its tenantId matches. -/
def getNote (s : MemStorage) (id tenantId : String) : Option Note :=
  match mapGet s.notes id with
  | none => none
  | some note => if note.tenantId ≠ tenantId then none else some note

/-- MemStorage.createNote: fresh nanoid and now become explicit parameters. -/
def createNote (s : MemStorage) (newId : String) (now : Nat)
    (title body tenantId authorId : String) : Note × MemStorage :=
  let note : Note :=
    { _id := newId
      title := title
      body := body
      tenantId := tenantId
      authorId := authorId
      createdAt := now
      updatedAt := now }
  (note, { s with notes := mapSet s.notes note._id note })

/-- MemStorage.updateNote: null unless (id, tenantId) matches; spread-merge of the
provided fields over the stored note, updatedAt refreshed. -/
def updateNote (s : MemStorage) (id tenantId : String) (updates : UpdateNote) (now : Nat) :
    Option Note × MemStorage :=
  match mapGet s.notes id with
  | none => (none, s)
  | some note =>
    if note.tenantId ≠ tenantId then (none, s)
    else
      let updatedNote : Note :=
        { note with
          title := updates.title.getD note.title
          body := updates.body.getD note.body
          updatedAt := now }
      (some updatedNote, { s with notes := mapSet s.notes id updatedNote })

/-- MemStorage.deleteNote: false unless (id, tenantId) matches; then Map.delete. -/
def deleteNote (s : MemStorage) (id tenantId : String) : Bool × MemStorage :=
  match mapGet s.notes id with
  | none => (false, s)
  | some note =>
    if note.tenantId ≠ tenantId then (false, s)
    else (true, { s with notes := mapDelete s.notes id })

/-- MemStorage.countNotesByTenant: counting loop over the values. -/
def countNotesByTenant (s : MemStorage) (tenantId : String) : Nat :=
  (mapValues s.notes).foldl (fun count n => if n.tenantId = tenantId then count + 1 else count) 0

end MemStorage

/-- JavaScript regex class backslash-s: space, tab, newline, carriage return,
vertical tab, form feed (ASCII range; the exotic Unicode spaces are out of scope
for the ASCII organization names the routes handle). -/
def jsWhitespace (c : Char) : Bool :=
  c = ' ' || c = '\t' || c = '\n' || c = '\r' || c = Char.ofNat 11 || c = Char.ofNat 12

/-- Characters kept by the first replace of the slug pipeline after toLowerCase:
lowercase ASCII letter, ASCII digit, or whitespace. -/
def slugKeep (c : Char) : Bool :=
  c.isLower || c.isDigit || jsWhitespace c

/-- State-machine reading of the global whitespace-run-to-hyphen replace: the flag records whether
the previous character was whitespace, so only the first character of each
whitespace run emits a hyphen. -/
def collapseWsAux : Bool → List Char → List Char
  | _, [] => []
  | inRun, c :: rest =>
    if jsWhitespace c then
      if inRun then collapseWsAux true rest
      else '-' :: collapseWsAux true rest
    else c :: collapseWsAux false rest

/-- Global regex replacement of each whitespace run by a single hyphen. -/
def collapseWs (l : List Char) : List Char :=
  collapseWsAux false l

/-- Slug derivation at signup (routes.ts): organizationName.toLowerCase(), then
strip every character outside lowercase letter, digit, whitespace, then replace
each whitespace run by a hyphen, then substring(0, 50). -/
def deriveSlug (organizationName : String) : String :=
  let lowered := organizationName.toList.map Char.toLower
  let stripped := lowered.filter slugKeep
  String.mk ((collapseWs stripped).take 50)

/-- Replacement of maximal whitespace runs by single hyphens, stated the way the
spec words it: a whitespace character followed by more whitespace is inside the
same maximal run, so only the run's last position yields the hyphen here. -/
def specCollapse : List Char → List Char
  | [] => []
  | [c] => if jsWhitespace c then ['-'] else [c]
  | c1 :: c2 :: rest =>
    if jsWhitespace c1 then
      if jsWhitespace c2 then specCollapse (c2 :: rest)
      else '-' :: specCollapse (c2 :: rest)
    else c1 :: specCollapse (c2 :: rest)

/-- The slug as the specification describes it: lowercase, strip every character
that is not a lowercase letter, digit or whitespace, replace each maximal run of
whitespace with a single hyphen, truncate to at most 50 characters. -/
def slugSpec (name : String) : String :=
  String.mk ((specCollapse ((name.toList.map Char.toLower).filter slugKeep)).take 50)

/-- Tenant summary embedded in the resolved identity req.user.tenant. -/
structure TenantInfo where
  _id : String
  name : String
  slug : String
  plan : Plan
  deriving DecidableEq, Repr

/-- Resolved identity req.user built by authenticateToken (shared/schema.ts AuthUser). -/
structure AuthUser where
  _id : String
  email : String
  role : Role
  tenantId : String
  tenant : TenantInfo
  deriving DecidableEq, Repr

/-- Payload of a decoded JWT: { sub, role, tenantId }. -/
structure TokenClaims where
  sub : String
  role : String
  tenantId : String
  deriving DecidableEq, Repr

/-- Outcome of a middleware: an early HTTP rejection or proceeding with req.user set. -/
inductive AuthCheck where
  | reject (status : Nat) (message : String)
  | proceed (user : AuthUser)
  deriving DecidableEq, Repr

/-- Role as the string stored in the JWT payload. -/
def Role.toStr : Role → String
  | .Admin => "Admin"
  | .Member => "Member"

/-- Accumulator pass behind jsSplitSpace: cut the character list at every single
space, like the JavaScript String.split with a one-space separator. -/
def jsSplitSpaceAux : List Char → List Char → List String
  | [], acc => [String.mk acc.reverse]
  | c :: rest, acc =>
    if c = ' ' then String.mk acc.reverse :: jsSplitSpaceAux rest []
    else jsSplitSpaceAux rest (c :: acc)

/-- JavaScript String.split with a one-space separator: adjacent separators
produce empty fragments and the result is never empty. -/
def jsSplitSpace (h : String) : List String :=
  jsSplitSpaceAux h.toList []

/-- Token extraction in authenticateToken: authHeader and authHeader.split(one
space)[1]; the empty string and a missing index are both falsy in JavaScript. -/
def extractToken (authHeader : Option String) : Option String :=
  match authHeader with
  | none => none
  | some h =>
    match (jsSplitSpace h).get? 1 with
    | none => none
    | some t => if t = "" then none else some t

/-- authenticateToken (middleware/auth.ts). jwt.verify is an external collaborator,
modelled as an oracle from secret and token to decoded claims (none models a
thrown verification error); the user and tenant loads (UserModel.findById,
TenantModel.findById against MongoDB) are likewise oracles. A missing JWT_SECRET
throws inside the try block, so the catch converts it to 401 Invalid token. -/
def authenticateToken (jwtSecret : Option String) (authHeader : Option String)
    (verify : String → String → Option TokenClaims)
    (findUser : String → Option User) (findTenant : String → Option Tenant) : AuthCheck :=
  match extractToken authHeader with
  | none => .reject 401 "Access token required"
  | some token =>
    match jwtSecret with
    | none => .reject 401 "Invalid token"
    | some secret =>
      match verify secret token with
      | none => .reject 401 "Invalid token"
      | some decoded =>
        match findUser decoded.sub with
        | none => .reject 401 "User not found"
        | some user =>
          match findTenant user.tenantId with
          | none => .reject 401 "Tenant not found"
          | some tenant =>
            .proceed
              { _id := user._id
                email := user.email
                role := user.role
                tenantId := user.tenantId
                tenant :=
                  { _id := tenant._id
                    name := tenant.name
                    slug := tenant.slug
                    plan := tenant.plan } }

/-- requireAdmin (middleware/auth.ts): 401 without an identity, 403 unless Admin. -/
def requireAdmin (reqUser : Option AuthUser) : AuthCheck :=
  match reqUser with
  | none => .reject 401 "Authentication required"
  | some user =>
    if user.role ≠ Role.Admin then .reject 403 "Admin access required"
    else .proceed user

/-- POST /api/auth/login (routes.ts). emailOk models the zod email regex, compare
models bcrypt.compare, sign models jwt.sign; a zod parse failure and a missing
JWT_SECRET both throw inside the try block, so the catch answers 500. The result
is the HTTP status together with the issued token, if any. -/
def loginRoute (s : MemStorage) (jwtSecret : Option String) (emailOk : String → Bool)
    (compare : String → String → Bool) (sign : String → TokenClaims → String)
    (email password : String) : Nat × Option String :=
  if emailOk email && decide (1 ≤ password.length) then
    match s.getUserByEmail email with
    | none => (401, none)
    | some user =>
      if compare password user.passwordHash then
        match s.getTenant user.tenantId with
        | none => (401, none)
        | some _tenant =>
          match jwtSecret with
          | none => (500, none)
          | some secret =>
            (200, some (sign secret
              { sub := user._id, role := user.role.toStr, tenantId := user.tenantId }))
      else (401, none)
  else (500, none)

/-- POST /api/auth/signup (routes.ts). Validation failure (zod throw) and a
missing JWT_SECRET are both caught by the generic catch and answered 500; the
duplicate-email and duplicate-slug branches answer 400 before anything is
created. nanoid values for the new tenant and user and the current time are
explicit parameters. -/
def signupRoute (s : MemStorage) (emailOk : String → Bool) (jwtSecret : Option String)
    (hash : String → String) (sign : String → TokenClaims → String)
    (tenantId userId : String) (now : Nat)
    (email password organizationName : String) : (Nat × Option String) × MemStorage :=
  if emailOk email && decide (6 ≤ password.length) && decide (1 ≤ organizationName.length) then
    match s.getUserByEmail email with
    | some _ => ((400, none), s)
    | none =>
      let slug := deriveSlug organizationName
      match s.getTenantBySlug slug with
      | some _ => ((400, none), s)
      | none =>
        let r1 := s.createTenant tenantId now
          { name := organizationName, slug := slug, plan := Plan.free }
        let r2 := r1.2.createUser userId now email (hash password) Role.Admin r1.1._id
        match jwtSecret with
        | none => ((500, none), r2.2)
        | some secret =>
          ((201, some (sign secret
            { sub := r2.1._id, role := r2.1.role.toStr, tenantId := r2.1.tenantId })), r2.2)
  else ((500, none), s)

/-- POST /api/notes (routes.ts). insertNoteSchema.parse requires a nonempty title
and body (a zod throw is answered 500 by the catch); a free-plan tenant, judged
from the freshly loaded req.user.tenant.plan, is rejected 403 once the stored
count reaches 3; otherwise the note is created and answered 201. -/
def createNoteRoute (s : MemStorage) (user : AuthUser) (newId : String) (now : Nat)
    (title body : String) : (Nat × Option Note) × MemStorage :=
  if decide (1 ≤ title.length) && decide (1 ≤ body.length) then
    if user.tenant.plan = Plan.free ∧ 3 ≤ s.countNotesByTenant user.tenantId then
      ((403, none), s)
    else
      let r := s.createNote newId now title body user.tenantId user._id
      ((201, some r.1), r.2)
  else ((500, none), s)

/-- POST /api/tenants/:slug/upgrade (routes.ts): requireAdmin runs first; the
handler rejects 403 when the path slug is not the caller's own tenant slug, and
otherwise upgrades the caller's own tenant to pro. -/
def upgradeTenantRoute (s : MemStorage) (reqUser : Option AuthUser) (slug : String)
    (now : Nat) : (Nat × Option Tenant) × MemStorage :=
  match requireAdmin reqUser with
  | .reject status _msg => ((status, none), s)
  | .proceed user =>
    if user.tenant.slug ≠ slug then ((403, none), s)
    else
      match s.updateTenantPlan user.tenantId Plan.pro now with
      | (none, s1) => ((404, none), s1)
      | (some t, s1) => ((200, some t), s1)

/-- Module-level state of storage.ts: whether the mongoStorage variable is set
(non-null exactly when a connection succeeded) and whether the memory fallback
instance has been constructed. -/
structure StorageGlobals where
  mongoConnected : Bool
  memFallback : Bool
  deriving DecidableEq, Repr

/-- The backend instance a storage access receives. -/
inductive BackendChoice where
  | mongo
  | memory
  deriving DecidableEq, Repr

/-- initializeStorage (storage.ts), called by getStorage on every storage access.
connectSucceeds models whether await connectDB() succeeds in this call. The
returned Bool records whether this call attempted the primary connection: it is
skipped only when mongoStorage is already set; a caught failure memoizes the
fallback instance but leaves mongoStorage null. -/
def initializeStorage (g : StorageGlobals) (connectSucceeds : Bool) :
    BackendChoice × StorageGlobals × Bool :=
  if g.mongoConnected then (BackendChoice.mongo, g, false)
  else if connectSucceeds then (BackendChoice.mongo, { g with mongoConnected := true }, true)
  else (BackendChoice.memory, { g with memFallback := true }, true)

/-- Concrete tenant used to instantiate the theorems on sample data. -/
def sampleTenant : Tenant :=
  { _id := "t1", name := "Acme", slug := "acme", plan := Plan.free, createdAt := 0, updatedAt := 0 }

/-- Concrete note of tenant t1. -/
def sampleNote : Note :=
  { _id := "n1", title := "hello", body := "world", tenantId := "t1", authorId := "u1",
    createdAt := 0, updatedAt := 0 }

/-- Concrete note of the other tenant t2. -/
def otherNote : Note :=
  { _id := "n2", title := "secret", body := "globex data", tenantId := "t2", authorId := "u2",
    createdAt := 0, updatedAt := 0 }

/-- Concrete user of tenant t1. -/
def sampleUser : User :=
  { _id := "u1", email := "admin@acme.test", passwordHash := "hash", role := Role.Admin,
    tenantId := "t1", createdAt := 0, updatedAt := 0 }

/-- Concrete storage state holding one tenant, one user and one note per tenant. -/
def sampleState : MemStorage :=
  { tenants := [("t1", sampleTenant)], users := [("u1", sampleUser)],
    notes := [("n1", sampleNote), ("n2", otherNote)] }

/-- Resolved identity of the Admin of tenant t1 (slug acme, free plan). -/
def sampleAdmin : AuthUser :=
  { _id := "u1", email := "admin@acme.test", role := Role.Admin, tenantId := "t1",
    tenant := { _id := "t1", name := "Acme", slug := "acme", plan := Plan.free } }

/-- First lookup after Map.set at the same key yields the stored value. -/
theorem mapGet_mapSet_self {α : Type} (m : List (String × α)) (k : String) (v : α) :
    mapGet (mapSet m k v) k = some v := by
  induction m with
  | nil => simp [mapGet, mapSet]
  | cons p rest ih =>
    by_cases h : p.1 = k
    · simp [mapGet, mapSet, h]
    · simp [mapGet, mapSet, h, ih]

/-- The counting loop of countNotesByTenant computes the length of the filtered list. -/
theorem foldl_count_eq_filter_length (l : List Note) (tenantId : String) (acc : Nat) :
    l.foldl (fun count n => if n.tenantId = tenantId then count + 1 else count) acc
      = acc + (l.filter (fun n => n.tenantId == tenantId)).length := by
  induction l generalizing acc with
  | nil => simp
  | cons n rest ih =>
    by_cases h : n.tenantId = tenantId
    · simp [List.foldl, List.filter, h, ih, beq_iff_eq]
      omega
    · have hb : (n.tenantId == tenantId) = false := by simp [h]
      simp [List.foldl, List.filter, h, ih, hb]

/-- The note stored by createNote is returned by getNote at the fresh id and the
same tenantId. -/
theorem getNote_createNote (s : MemStorage) (newId : String) (now : Nat)
    (title body tenantId authorId : String) :
    ((s.createNote newId now title body tenantId authorId).2).getNote newId tenantId
      = some (s.createNote newId now title body tenantId authorId).1 := by
  unfold MemStorage.createNote MemStorage.getNote
  simp [mapGet_mapSet_self]

/-- The two collapse readings of the whitespace-run replacement agree; the second
conjunct tracks a run already opened by the whitespace character w. -/
theorem collapse_agree (l : List Char) :
    collapseWsAux false l = specCollapse l ∧
    ∀ w, jsWhitespace w = true → specCollapse (w :: l) = '-' :: collapseWsAux true l := by
  induction l with
  | nil =>
    constructor
    · rfl
    · intro w hw
      simp [specCollapse, collapseWsAux, hw]
  | cons c rest ih =>
    have hA : collapseWsAux false (c :: rest) = specCollapse (c :: rest) := by
      by_cases hc : jsWhitespace c = true
      · rw [ih.2 c hc]
        simp [collapseWsAux, hc]
      · cases rest with
        | nil => simp [collapseWsAux, specCollapse, hc]
        | cons c2 r =>
          rw [show collapseWsAux false (c :: c2 :: r) = c :: collapseWsAux false (c2 :: r) by
            simp [collapseWsAux, hc]]
          rw [ih.1]
          simp [specCollapse, hc]
    refine ⟨hA, ?_⟩
    intro w hw
    by_cases hc : jsWhitespace c = true
    · rw [show specCollapse (w :: c :: rest) = specCollapse (c :: rest) by
        simp [specCollapse, hw, hc]]
      rw [ih.2 c hc]
      simp [collapseWsAux, hc]
    · rw [show specCollapse (w :: c :: rest) = '-' :: specCollapse (c :: rest) by
        simp [specCollapse, hw, hc]]
      rw [← hA]
      simp [collapseWsAux, hc]

/-- C1: for every storage state, note id n and tenant id T, getNote(n, T) is null
whenever the note with id n exists but belongs to a different tenant, and it
returns a note exactly when both the id and the tenantId match. -/
theorem getNote_tenant_isolation (s : MemStorage) (n T : String) :
    (∀ note, mapGet s.notes n = some note → note.tenantId ≠ T → s.getNote n T = none) ∧
    (∀ note, s.getNote n T = some note ↔ (mapGet s.notes n = some note ∧ note.tenantId = T)) := by
  constructor
  · intro note hget hne
    simp [MemStorage.getNote, hget, hne]
  · intro note
    constructor
    · intro h
      unfold MemStorage.getNote at h
      cases hg : mapGet s.notes n with
      | none => simp [hg] at h
      | some note0 =>
        rw [hg] at h
        by_cases ht : note0.tenantId = T
        · have he : note0 = note := by simpa [ht] using h
          subst he
          exact ⟨rfl, ht⟩
        · simp [ht] at h
    · rintro ⟨hget, ht⟩
      simp [MemStorage.getNote, hget, ht]

/-- Witness for C1 on the sample state: the note n1 of tenant t1 is invisible to
tenant t2 and visible to tenant t1. -/
theorem getNote_tenant_isolation_witness :
    sampleState.getNote "n1" "t2" = none ∧ sampleState.getNote "n1" "t1" = some sampleNote := by
  constructor
  · exact (getNote_tenant_isolation sampleState "n1" "t2").1 sampleNote rfl (by decide)
  · exact ((getNote_tenant_isolation sampleState "n1" "t1").2 sampleNote).mpr ⟨rfl, rfl⟩

/-- C2: every note returned by getNotesByTenant(T) has tenantId equal to T. -/
theorem getNotesByTenant_only_own_tenant (s : MemStorage) (T : String) :
    ∀ note ∈ s.getNotesByTenant T, note.tenantId = T := by
  intro note hmem
  unfold MemStorage.getNotesByTenant at hmem
  have h := (List.mem_filter.mp hmem).2
  simpa [beq_iff_eq] using h

/-- Witness for C2 on the sample state. -/
theorem getNotesByTenant_only_own_tenant_witness :
    sampleNote ∈ sampleState.getNotesByTenant "t1" ∧ sampleNote.tenantId = "t1" :=
  ⟨by decide, getNotesByTenant_only_own_tenant sampleState "t1" sampleNote (by decide)⟩

/-- C10: countNotesByTenant(T) equals the length of getNotesByTenant(T). -/
theorem countNotes_eq_length_getNotes (s : MemStorage) (T : String) :
    s.countNotesByTenant T = (s.getNotesByTenant T).length := by
  unfold MemStorage.countNotesByTenant MemStorage.getNotesByTenant
  simpa using foldl_count_eq_filter_length (mapValues s.notes) T 0

/-- C7: the slug derived at signup agrees with the specification reading of the
pipeline on every organization name, and the name Acme Corp with a trailing
exclamation mark yields acme-corp. -/
theorem deriveSlug_matches_spec :
    (∀ name, deriveSlug name = slugSpec name) ∧ deriveSlug "Acme Corp!" = "acme-corp" := by
  constructor
  · intro name
    simp only [deriveSlug, slugSpec, collapseWs]
    rw [(collapse_agree _).1]
  · decide

/-- C3 counterexample: backend selection is not sticky. The first access fails to
connect and chooses the in-memory fallback, yet the very next storage access
attempts the primary connection again (the attempted flag of the second call is
true, because mongoStorage is still null). -/
theorem backend_fallback_not_sticky :
    (initializeStorage ⟨false, false⟩ false).1 = BackendChoice.memory ∧
    (initializeStorage (initializeStorage ⟨false, false⟩ false).2.1 false).2.2 = true := by
  decide

/-- C3 amended: only a successful primary connection is sticky. While the primary
is unconnected, every storage access attempts the primary connection, even after
the fallback was chosen; a failed attempt returns the memory backend, memoizes
the fallback instance and leaves the primary unconnected; once connected, the
primary is returned without any further connection attempt. -/
theorem backend_selection_retries_primary (g : StorageGlobals) (c : Bool) :
    (g.mongoConnected = false → (initializeStorage g c).2.2 = true) ∧
    (g.mongoConnected = false → c = false →
        (initializeStorage g c).1 = BackendChoice.memory ∧
        (initializeStorage g c).2.1.mongoConnected = false ∧
        (initializeStorage g c).2.1.memFallback = true) ∧
    (g.mongoConnected = true →
        (initializeStorage g c).1 = BackendChoice.mongo ∧
        (initializeStorage g c).2.2 = false) := by
  obtain ⟨m, f⟩ := g
  cases m <;> cases f <;> cases c <;> decide

/-- Witness for the amended C3 at the state reached after one failed access: the
next access still attempts the primary and returns the memory backend. -/
theorem backend_selection_retries_primary_witness :
    (initializeStorage ⟨false, true⟩ false).2.2 = true ∧
    (initializeStorage ⟨false, true⟩ false).1 = BackendChoice.memory := by
  refine ⟨(backend_selection_retries_primary ⟨false, true⟩ false).1 rfl, ?_⟩
  exact ((backend_selection_retries_primary ⟨false, true⟩ false).2.1 rfl rfl).1

/-- C4 counterexample: with the signing secret absent and a bearer token present,
the auth middleware answers the ordinary per-request 401 Invalid token response
(the throw happens inside the try block and the catch converts it). -/
theorem missing_secret_converted_to_401 :
    authenticateToken none (some "Bearer sometoken") (fun _ _ => none) (fun _ => none)
        (fun _ => none) = AuthCheck.reject 401 "Invalid token" := by
  rfl

/-- C4 amended: absence of the signing secret is a per-request error, not a
startup-fatal one: the middleware converts it to 401 Invalid token whenever a
token is presented, and the login route converts it to a 500 response after
credentials verified. -/
theorem missing_secret_behavior :
    (∀ (header : Option String) (tok : String) (verify : String → String → Option TokenClaims)
        (findUser : String → Option User) (findTenant : String → Option Tenant),
        extractToken header = some tok →
        authenticateToken none header verify findUser findTenant
          = AuthCheck.reject 401 "Invalid token") ∧
    (∀ (s : MemStorage) (emailOk : String → Bool) (compare : String → String → Bool)
        (sign : String → TokenClaims → String) (email password : String) (user : User)
        (tenant : Tenant),
        emailOk email = true → 1 ≤ password.length →
        s.getUserByEmail email = some user →
        compare password user.passwordHash = true →
        s.getTenant user.tenantId = some tenant →
        loginRoute s none emailOk compare sign email password = (500, none)) := by
  constructor
  · intro header tok verify findUser findTenant hx
    simp [authenticateToken, hx]
  · intro s emailOk compare sign email password user tenant he hp hu hc ht
    simp [loginRoute, he, hp, hu, hc, ht]

/-- Witness for the amended C4 on the sample state: both conversions at concrete
inputs. -/
theorem missing_secret_behavior_witness :
    authenticateToken none (some "Bearer tok") (fun _ _ => none) (fun _ => none) (fun _ => none)
        = AuthCheck.reject 401 "Invalid token" ∧
    loginRoute sampleState none (fun _ => true) (fun _ _ => true) (fun _ _ => "t")
        "admin@acme.test" "password" = (500, none) := by
  constructor
  · exact missing_secret_behavior.1 (some "Bearer tok") "tok" _ _ _ rfl
  · exact missing_secret_behavior.2 sampleState _ _ _ "admin@acme.test" "password"
      sampleUser sampleTenant rfl (by decide) rfl rfl rfl

/-- C5: for a valid body, a free-plan caller is rejected 403 with the state
unchanged once the stored note count reaches 3; below 3 the creation succeeds
with 201 and the note retrievable; a pro-plan caller is never rejected by the
limit. -/
theorem createNote_plan_limit (s : MemStorage) (user : AuthUser) (newId : String) (now : Nat)
    (title body : String) (hv : 1 ≤ title.length ∧ 1 ≤ body.length) :
    (user.tenant.plan = Plan.free → 3 ≤ s.countNotesByTenant user.tenantId →
        createNoteRoute s user newId now title body = ((403, none), s)) ∧
    (s.countNotesByTenant user.tenantId < 3 →
        ∃ note s1, createNoteRoute s user newId now title body = ((201, some note), s1) ∧
          note.tenantId = user.tenantId ∧ s1.getNote note._id user.tenantId = some note) ∧
    (user.tenant.plan = Plan.pro →
        ∃ note s1, createNoteRoute s user newId now title body = ((201, some note), s1) ∧
          note.tenantId = user.tenantId ∧ s1.getNote note._id user.tenantId = some note) := by
  have hb : (decide (1 ≤ title.length) && decide (1 ≤ body.length)) = true := by
    simp [hv.1, hv.2]
  refine ⟨?_, ?_, ?_⟩
  · intro hfree hcount
    simp [createNoteRoute, hb, hfree, hcount]
  · intro hcount
    have hcond : ¬ (user.tenant.plan = Plan.free ∧ 3 ≤ s.countNotesByTenant user.tenantId) := by
      intro hx
      omega
    refine ⟨(s.createNote newId now title body user.tenantId user._id).1,
            (s.createNote newId now title body user.tenantId user._id).2, ?_, rfl, ?_⟩
    · simp [createNoteRoute, hb, hcond]
    · exact getNote_createNote s newId now title body user.tenantId user._id
  · intro hpro
    have hcond : ¬ (user.tenant.plan = Plan.free ∧ 3 ≤ s.countNotesByTenant user.tenantId) := by
      intro hx
      rw [hpro] at hx
      cases hx.1
    refine ⟨(s.createNote newId now title body user.tenantId user._id).1,
            (s.createNote newId now title body user.tenantId user._id).2, ?_, rfl, ?_⟩
    · simp [createNoteRoute, hb, hcond]
    · exact getNote_createNote s newId now title body user.tenantId user._id

/-- Witness for C5: the free-plan Admin of t1 holds 1 note, so the creation
succeeds on the sample state. -/
theorem createNote_plan_limit_witness :
    ∃ note s1, createNoteRoute sampleState sampleAdmin "n9" 5 "todo" "buy milk"
        = ((201, some note), s1) ∧ note.tenantId = sampleAdmin.tenantId ∧
        s1.getNote note._id sampleAdmin.tenantId = some note :=
  (createNote_plan_limit sampleState sampleAdmin "n9" 5 "todo" "buy milk"
    ⟨by decide, by decide⟩).2.1 (by decide)

/-- C6 counterexample: a signup body failing schema validation (password of five
characters) is answered 500 by the generic catch, not 400. -/
theorem signup_validation_returns_500 :
    (signupRoute ⟨[], [], []⟩ (fun _ => true) (some "secret") (fun p => p) (fun _ _ => "tok")
        "t1" "u1" 0 "user@example.com" "12345" "Acme").1.1 = 500 := by
  rfl

/-- C6 amended: a request body failing schema validation is answered 500 (the zod
throw is caught by the generic catch); the 400 responses of the signup route are
only the duplicate-email and duplicate-organization branches, both reached only
with a valid body. -/
theorem signup_error_statuses (s : MemStorage) (emailOk : String → Bool)
    (jwtSecret : Option String) (hash : String → String) (sign : String → TokenClaims → String)
    (tid uid : String) (now : Nat) (email password organizationName : String) :
    ((emailOk email && decide (6 ≤ password.length)
        && decide (1 ≤ organizationName.length)) = false →
      signupRoute s emailOk jwtSecret hash sign tid uid now email password organizationName
        = ((500, none), s)) ∧
    (∀ u, (emailOk email && decide (6 ≤ password.length)
        && decide (1 ≤ organizationName.length)) = true →
      s.getUserByEmail email = some u →
      signupRoute s emailOk jwtSecret hash sign tid uid now email password organizationName
        = ((400, none), s)) ∧
    (∀ t, (emailOk email && decide (6 ≤ password.length)
        && decide (1 ≤ organizationName.length)) = true →
      s.getUserByEmail email = none →
      s.getTenantBySlug (deriveSlug organizationName) = some t →
      signupRoute s emailOk jwtSecret hash sign tid uid now email password organizationName
        = ((400, none), s)) := by
  refine ⟨?_, ?_, ?_⟩
  · intro hbad
    simp [signupRoute, hbad]
  · intro u hok hu
    simp [signupRoute, hok, hu]
  · intro t hok hu ht
    simp [signupRoute, hok, hu, ht]

/-- Witness for the amended C6: short password answered 500 on the empty store. -/
theorem signup_error_statuses_witness :
    signupRoute ⟨[], [], []⟩ (fun _ => true) (some "secret") (fun p => p) (fun _ _ => "tok")
        "t1" "u1" 0 "user@example.com" "123" "Acme" = ((500, none), ⟨[], [], []⟩) :=
  (signup_error_statuses ⟨[], [], []⟩ (fun _ => true) (some "secret") (fun p => p)
    (fun _ _ => "tok") "t1" "u1" 0 "user@example.com" "123" "Acme").1 (by decide)

/-- C8: an authenticated caller who is not Admin, or whose own tenant slug is not
the path slug, receives 403 with the state unchanged; when both conditions hold
the route is exactly updateTenantPlan on the caller's own tenant. -/
theorem upgrade_requires_admin_own_tenant (s : MemStorage) (user : AuthUser) (slug : String)
    (now : Nat) :
    ((user.role ≠ Role.Admin ∨ user.tenant.slug ≠ slug) →
        upgradeTenantRoute s (some user) slug now = ((403, none), s)) ∧
    (user.role = Role.Admin → user.tenant.slug = slug →
        upgradeTenantRoute s (some user) slug now =
          (match s.updateTenantPlan user.tenantId Plan.pro now with
           | (none, s1) => ((404, none), s1)
           | (some t, s1) => ((200, some t), s1))) := by
  constructor
  · intro hbad
    by_cases hrole : user.role = Role.Admin
    · have hslug : user.tenant.slug ≠ slug := by
        rcases hbad with hb | hb
        · exact absurd hrole hb
        · exact hb
      simp [upgradeTenantRoute, requireAdmin, hrole, hslug]
    · simp [upgradeTenantRoute, requireAdmin, hrole]
  · intro hrole hslug
    simp [upgradeTenantRoute, requireAdmin, hrole, hslug]

/-- Witness for C8: the Admin of tenant acme calling the upgrade of globex gets
403 and the sample state is unchanged. -/
theorem upgrade_requires_admin_own_tenant_witness :
    upgradeTenantRoute sampleState (some sampleAdmin) "globex" 7 = ((403, none), sampleState) :=
  (upgrade_requires_admin_own_tenant sampleState sampleAdmin "globex" 7).1 (Or.inr (by decide))

/-- C9: createNote followed by getNote at the returned id and same tenantId
returns the very note createNote returned, and a subsequent updateNote at a
non-earlier time succeeds with a non-decreasing updatedAt. -/
theorem createNote_getNote_roundTrip (s : MemStorage) (newId : String) (t1 t2 : Nat)
    (title body tenantId authorId : String) (upd : UpdateNote) (h : t1 ≤ t2) :
    ((s.createNote newId t1 title body tenantId authorId).2).getNote newId tenantId
        = some (s.createNote newId t1 title body tenantId authorId).1 ∧
    (∃ n2 s2,
      ((s.createNote newId t1 title body tenantId authorId).2).updateNote newId tenantId upd t2
          = (some n2, s2) ∧
      (s.createNote newId t1 title body tenantId authorId).1.updatedAt ≤ n2.updatedAt) := by
  constructor
  · exact getNote_createNote s newId t1 title body tenantId authorId
  · simp [MemStorage.createNote, MemStorage.updateNote, mapGet_mapSet_self]
    exact h

/-- Witness for C9 at concrete times 1 and 2 on the sample state. -/
theorem createNote_getNote_roundTrip_witness :
    ((sampleState.createNote "n9" 1 "t" "b" "t1" "u1").2).getNote "n9" "t1"
        = some (sampleState.createNote "n9" 1 "t" "b" "t1" "u1").1 ∧
    (∃ n2 s2,
      ((sampleState.createNote "n9" 1 "t" "b" "t1" "u1").2).updateNote "n9" "t1"
          ⟨none, none⟩ 2 = (some n2, s2) ∧
      (sampleState.createNote "n9" 1 "t" "b" "t1" "u1").1.updatedAt ≤ n2.updatedAt) :=
  createNote_getNote_roundTrip sampleState "n9" 1 2 "t" "b" "t1" "u1" ⟨none, none⟩ (by decide)
